import Mathlib

/-!
A Lean model of the AWS resource ledger of avalanche-ops
(`src/aws/mod.rs`): the `Resources` record, its construction defaults,
its serde-style encoding to a JSON-like structure, the region resolution
chain of `load_config`, and the ledger operations (`validate`,
`applyCreated`) that the design document specifies for the ledger.
-/

/-- A JSON-like value, the target of the serde encoding of the ledger. -/
inductive Json where
  | null : Json
  | bool (b : Bool) : Json
  | str (s : String) : Json
  | arr (elems : List Json) : Json
  | obj (fields : List (String × Json)) : Json

/-- Modelled from the spec: the caller identity record produced by the
`sts` module, whose source is not among the visible files; section 4.2 of
the design document gives its fields as account id, principal arn and
user id, all strings. -/
structure Identity where
  account_id : String
  principal_arn : String
  user_id : String
  deriving DecidableEq

/-- The `Resources` struct of `src/aws/mod.rs`: the resource ledger.
Field order and names follow the Rust declaration (`rename_all =
"snake_case"` leaves the names unchanged). `region` and `s3_bucket` are
plain strings carrying `#[serde(default)]`; every other field is an
`Option` carrying `#[serde(skip_serializing_if = "Option::is_none")]`. -/
structure Resources where
  identity : Option Identity
  region : String
  s3_bucket : String
  db_backup_s3_region : Option String
  db_backup_s3_bucket : Option String
  db_backup_s3_key : Option String
  instance_system_logs : Option Bool
  instance_system_metrics : Option Bool
  nlb_acm_certificate_arn : Option String
  kms_cmk_id : Option String
  kms_cmk_arn : Option String
  ec2_key_name : Option String
  ec2_key_path : Option String
  cloudformation_ec2_instance_role : Option String
  cloudformation_ec2_instance_profile_arn : Option String
  cloudformation_vpc : Option String
  cloudformation_vpc_id : Option String
  cloudformation_vpc_security_group_id : Option String
  cloudformation_vpc_public_subnet_ids : Option (List String)
  cloudformation_asg_anchor_nodes : Option String
  cloudformation_asg_anchor_nodes_logical_id : Option String
  cloudformation_asg_non_anchor_nodes : Option String
  cloudformation_asg_non_anchor_nodes_logical_id : Option String
  cloudformation_asg_nlb_arn : Option String
  cloudformation_asg_nlb_target_group_arn : Option String
  cloudformation_asg_nlb_dns_name : Option String
  cloudwatch_avalanche_metrics_namespace : Option String
  deriving DecidableEq

/-- The inherent constructor `Resources::default` of `src/aws/mod.rs`
(lines 164-207): region set to the fallback region, bucket empty, the
two instance telemetry flags enabled, everything else unset. -/
def Resources.default : Resources :=
  { identity := none
    region := "us-west-2"
    s3_bucket := ""
    db_backup_s3_region := none
    db_backup_s3_bucket := none
    db_backup_s3_key := none
    instance_system_logs := some true
    instance_system_metrics := some true
    nlb_acm_certificate_arn := none
    kms_cmk_id := none
    kms_cmk_arn := none
    ec2_key_name := none
    ec2_key_path := none
    cloudformation_ec2_instance_role := none
    cloudformation_ec2_instance_profile_arn := none
    cloudformation_vpc := none
    cloudformation_vpc_id := none
    cloudformation_vpc_security_group_id := none
    cloudformation_vpc_public_subnet_ids := none
    cloudformation_asg_anchor_nodes := none
    cloudformation_asg_anchor_nodes_logical_id := none
    cloudformation_asg_non_anchor_nodes := none
    cloudformation_asg_non_anchor_nodes_logical_id := none
    cloudformation_asg_nlb_arn := none
    cloudformation_asg_nlb_target_group_arn := none
    cloudformation_asg_nlb_dns_name := none
    cloudwatch_avalanche_metrics_namespace := none }

/-- The body of `impl Default for Resources` (lines 158-162) is
`Self::default()`.  By Rust method resolution an inherent associated
function shadows a trait method of the same name at a `Self::` path, so
the call resolves to the inherent `Resources::default` above, not to the
trait method being defined; the translation therefore delegates to
`Resources.default`. -/
def Resources.defaultImpl : Resources :=
  Resources.default

/-- The region provider chain that `load_config` builds (lines 20-22):
`first_try(reg.map(Region::new)).or_default_provider().or_else(Region::new("us-west-2"))`.
The first provider yields the explicit region whenever one was passed
(no emptiness check is involved), the second is the ambient environment
default, and the third always yields the hardcoded fallback. -/
def regionChain (reg envDefault : Option String) : Option String :=
  (reg.orElse fun _ => envDefault).orElse fun _ => some "us-west-2"

/-- The slice of the SDK configuration that `load_config` determines:
the resolved region (the SDK stores it as an optional value). -/
structure AwsSdkConfig where
  region : Option String
  deriving DecidableEq

/-- The error type of the `io::Result` returned by `load_config`. -/
inductive IoErr where
  | mk (msg : String)
  deriving DecidableEq

/-- `load_config` of `src/aws/mod.rs` (lines 18-26), with the ambient
environment default region made an explicit argument: it builds the
region provider chain, loads the shared configuration with the resolved
region, and returns `Ok` unconditionally. -/
def load_config (reg envDefault : Option String) : Except IoErr AwsSdkConfig :=
  Except.ok { region := regionChain reg envDefault }

/-- serde encoding of the identity record: a JSON object with one string
entry per field, in declaration order. -/
def Identity.toJson (i : Identity) : Json :=
  Json.obj
    [("account_id", Json.str i.account_id),
     ("principal_arn", Json.str i.principal_arn),
     ("user_id", Json.str i.user_id)]

/-- First third of the serde field list of `Resources` (fields up to the
certificate arn), in declaration order: each field name paired with
`some` encoded value when the field serializes and `none` when
`skip_serializing_if = "Option::is_none"` suppresses it.  `region` and
`s3_bucket` carry no skip attribute, so they always serialize. -/
def Resources.fieldEntriesA (r : Resources) : List (String × Option Json) :=
  [("identity", r.identity.map Identity.toJson),
   ("region", some (Json.str r.region)),
   ("s3_bucket", some (Json.str r.s3_bucket)),
   ("db_backup_s3_region", r.db_backup_s3_region.map Json.str),
   ("db_backup_s3_bucket", r.db_backup_s3_bucket.map Json.str),
   ("db_backup_s3_key", r.db_backup_s3_key.map Json.str),
   ("instance_system_logs", r.instance_system_logs.map Json.bool),
   ("instance_system_metrics", r.instance_system_metrics.map Json.bool),
   ("nlb_acm_certificate_arn", r.nlb_acm_certificate_arn.map Json.str)]

/-- Second third of the serde field list of `Resources`: the KMS, EC2
key and role/VPC stack fields, in declaration order. -/
def Resources.fieldEntriesB (r : Resources) : List (String × Option Json) :=
  [("kms_cmk_id", r.kms_cmk_id.map Json.str),
   ("kms_cmk_arn", r.kms_cmk_arn.map Json.str),
   ("ec2_key_name", r.ec2_key_name.map Json.str),
   ("ec2_key_path", r.ec2_key_path.map Json.str),
   ("cloudformation_ec2_instance_role", r.cloudformation_ec2_instance_role.map Json.str),
   ("cloudformation_ec2_instance_profile_arn", r.cloudformation_ec2_instance_profile_arn.map Json.str),
   ("cloudformation_vpc", r.cloudformation_vpc.map Json.str),
   ("cloudformation_vpc_id", r.cloudformation_vpc_id.map Json.str),
   ("cloudformation_vpc_security_group_id", r.cloudformation_vpc_security_group_id.map Json.str),
   ("cloudformation_vpc_public_subnet_ids",
     r.cloudformation_vpc_public_subnet_ids.map fun xs => Json.arr (xs.map Json.str))]

/-- Last third of the serde field list of `Resources`: the scaling
group, load balancer and metrics namespace fields, in declaration
order. -/
def Resources.fieldEntriesC (r : Resources) : List (String × Option Json) :=
  [("cloudformation_asg_anchor_nodes", r.cloudformation_asg_anchor_nodes.map Json.str),
   ("cloudformation_asg_anchor_nodes_logical_id", r.cloudformation_asg_anchor_nodes_logical_id.map Json.str),
   ("cloudformation_asg_non_anchor_nodes", r.cloudformation_asg_non_anchor_nodes.map Json.str),
   ("cloudformation_asg_non_anchor_nodes_logical_id", r.cloudformation_asg_non_anchor_nodes_logical_id.map Json.str),
   ("cloudformation_asg_nlb_arn", r.cloudformation_asg_nlb_arn.map Json.str),
   ("cloudformation_asg_nlb_target_group_arn", r.cloudformation_asg_nlb_target_group_arn.map Json.str),
   ("cloudformation_asg_nlb_dns_name", r.cloudformation_asg_nlb_dns_name.map Json.str),
   ("cloudwatch_avalanche_metrics_namespace", r.cloudwatch_avalanche_metrics_namespace.map Json.str)]

/-- The full serde field list of `Resources`, in declaration order. -/
def Resources.fieldEntries (r : Resources) : List (String × Option Json) :=
  r.fieldEntriesA ++ r.fieldEntriesB ++ r.fieldEntriesC

/-- Turn a field list into the emitted record: entries whose value is
`none` are omitted entirely. -/
def buildRecord : List (String × Option Json) → List (String × Json)
  | [] => []
  | (_, none) :: rest => buildRecord rest
  | (name, some j) :: rest => (name, j) :: buildRecord rest

/-- The serialized form of the ledger: the emitted field list. -/
def Resources.toJsonFields (r : Resources) : List (String × Json) :=
  buildRecord r.fieldEntries

/-- The serialized form of the ledger as a JSON value. -/
def Resources.toJson (r : Resources) : Json :=
  Json.obj r.toJsonFields

/-- The serde field names of `Resources`, in declaration order. -/
def knownKeys : List String :=
  ["identity", "region", "s3_bucket",
   "db_backup_s3_region", "db_backup_s3_bucket", "db_backup_s3_key",
   "instance_system_logs", "instance_system_metrics",
   "nlb_acm_certificate_arn",
   "kms_cmk_id", "kms_cmk_arn",
   "ec2_key_name", "ec2_key_path",
   "cloudformation_ec2_instance_role", "cloudformation_ec2_instance_profile_arn",
   "cloudformation_vpc", "cloudformation_vpc_id",
   "cloudformation_vpc_security_group_id", "cloudformation_vpc_public_subnet_ids",
   "cloudformation_asg_anchor_nodes", "cloudformation_asg_anchor_nodes_logical_id",
   "cloudformation_asg_non_anchor_nodes", "cloudformation_asg_non_anchor_nodes_logical_id",
   "cloudformation_asg_nlb_arn", "cloudformation_asg_nlb_target_group_arn",
   "cloudformation_asg_nlb_dns_name",
   "cloudwatch_avalanche_metrics_namespace"]

/-- Drop the entries of a record whose name is not a serde field name of
`Resources`. -/
def stripUnknown (j : List (String × Json)) : List (String × Json) :=
  j.filter fun p => knownKeys.contains p.1

/-- Decode a JSON value as a string. -/
def decStr : Json → Option String
  | Json.str s => some s
  | _ => none

/-- Decode a JSON value as a boolean. -/
def decBool : Json → Option Bool
  | Json.bool b => some b
  | _ => none

/-- Decode a list of JSON values elementwise as strings. -/
def decStrList : List Json → Option (List String)
  | [] => some []
  | j :: rest => do
    let s ← decStr j
    let srest ← decStrList rest
    some (s :: srest)

/-- Decode a JSON value as an array of strings: every element must be a
string. -/
def decStrArr : Json → Option (List String)
  | Json.arr xs => decStrList xs
  | _ => none

/-- serde decoding of an `Option` field: an absent entry and an explicit
`null` both decode to `none`; any other value must decode under the
element decoder. -/
def decOpt (dec : Json → Option α) : Option Json → Option (Option α)
  | none => some none
  | some Json.null => some none
  | some j => (dec j).map some

/-- serde decoding of a required string field carrying
`#[serde(default)]`: an absent entry decodes to the empty string, a
present entry must be a string. -/
def decStringDefault : Option Json → Option String
  | none => some ""
  | some (Json.str s) => some s
  | some _ => none

/-- serde decoding of a required string field with no default. -/
def decReqStr : Option Json → Option String
  | some (Json.str s) => some s
  | _ => none

/-- Decoder of the identity record: a JSON object whose three string
fields are read by name; unknown entries are ignored. -/
def Identity.fromJsonV : Json → Option Identity
  | Json.obj fields => do
    let a ← decReqStr (fields.lookup "account_id")
    let p ← decReqStr (fields.lookup "principal_arn")
    let u ← decReqStr (fields.lookup "user_id")
    some { account_id := a, principal_arn := p, user_id := u }
  | _ => none

/-- The decoded values of the first nine serde fields of `Resources`
(identity through certificate arn). -/
structure DecodedA where
  identity : Option Identity
  region : String
  s3_bucket : String
  db_backup_s3_region : Option String
  db_backup_s3_bucket : Option String
  db_backup_s3_key : Option String
  instance_system_logs : Option Bool
  instance_system_metrics : Option Bool
  nlb_acm_certificate_arn : Option String

/-- The decoded values of the next ten serde fields of `Resources` (the
KMS, EC2 key and role/VPC stack fields). -/
structure DecodedB where
  kms_cmk_id : Option String
  kms_cmk_arn : Option String
  ec2_key_name : Option String
  ec2_key_path : Option String
  cloudformation_ec2_instance_role : Option String
  cloudformation_ec2_instance_profile_arn : Option String
  cloudformation_vpc : Option String
  cloudformation_vpc_id : Option String
  cloudformation_vpc_security_group_id : Option String
  cloudformation_vpc_public_subnet_ids : Option (List String)

/-- The decoded values of the last eight serde fields of `Resources`
(the scaling group, load balancer and metrics namespace fields). -/
structure DecodedC where
  cloudformation_asg_anchor_nodes : Option String
  cloudformation_asg_anchor_nodes_logical_id : Option String
  cloudformation_asg_non_anchor_nodes : Option String
  cloudformation_asg_non_anchor_nodes_logical_id : Option String
  cloudformation_asg_nlb_arn : Option String
  cloudformation_asg_nlb_target_group_arn : Option String
  cloudformation_asg_nlb_dns_name : Option String
  cloudwatch_avalanche_metrics_namespace : Option String

/-- Decode the first nine serde fields of `Resources` from a record:
each field is read by name with the decoder its type and attributes
dictate. -/
def Resources.decodeA (j : List (String × Json)) : Option DecodedA := do
  let identity ← decOpt Identity.fromJsonV (j.lookup "identity")
  let region ← decStringDefault (j.lookup "region")
  let s3_bucket ← decStringDefault (j.lookup "s3_bucket")
  let db_backup_s3_region ← decOpt decStr (j.lookup "db_backup_s3_region")
  let db_backup_s3_bucket ← decOpt decStr (j.lookup "db_backup_s3_bucket")
  let db_backup_s3_key ← decOpt decStr (j.lookup "db_backup_s3_key")
  let instance_system_logs ← decOpt decBool (j.lookup "instance_system_logs")
  let instance_system_metrics ← decOpt decBool (j.lookup "instance_system_metrics")
  let nlb_acm_certificate_arn ← decOpt decStr (j.lookup "nlb_acm_certificate_arn")
  some
    { identity := identity
      region := region
      s3_bucket := s3_bucket
      db_backup_s3_region := db_backup_s3_region
      db_backup_s3_bucket := db_backup_s3_bucket
      db_backup_s3_key := db_backup_s3_key
      instance_system_logs := instance_system_logs
      instance_system_metrics := instance_system_metrics
      nlb_acm_certificate_arn := nlb_acm_certificate_arn }

/-- Decode the next ten serde fields of `Resources` from a record. -/
def Resources.decodeB (j : List (String × Json)) : Option DecodedB := do
  let kms_cmk_id ← decOpt decStr (j.lookup "kms_cmk_id")
  let kms_cmk_arn ← decOpt decStr (j.lookup "kms_cmk_arn")
  let ec2_key_name ← decOpt decStr (j.lookup "ec2_key_name")
  let ec2_key_path ← decOpt decStr (j.lookup "ec2_key_path")
  let cloudformation_ec2_instance_role ← decOpt decStr (j.lookup "cloudformation_ec2_instance_role")
  let cloudformation_ec2_instance_profile_arn ← decOpt decStr (j.lookup "cloudformation_ec2_instance_profile_arn")
  let cloudformation_vpc ← decOpt decStr (j.lookup "cloudformation_vpc")
  let cloudformation_vpc_id ← decOpt decStr (j.lookup "cloudformation_vpc_id")
  let cloudformation_vpc_security_group_id ← decOpt decStr (j.lookup "cloudformation_vpc_security_group_id")
  let cloudformation_vpc_public_subnet_ids ← decOpt decStrArr (j.lookup "cloudformation_vpc_public_subnet_ids")
  some
    { kms_cmk_id := kms_cmk_id
      kms_cmk_arn := kms_cmk_arn
      ec2_key_name := ec2_key_name
      ec2_key_path := ec2_key_path
      cloudformation_ec2_instance_role := cloudformation_ec2_instance_role
      cloudformation_ec2_instance_profile_arn := cloudformation_ec2_instance_profile_arn
      cloudformation_vpc := cloudformation_vpc
      cloudformation_vpc_id := cloudformation_vpc_id
      cloudformation_vpc_security_group_id := cloudformation_vpc_security_group_id
      cloudformation_vpc_public_subnet_ids := cloudformation_vpc_public_subnet_ids }

/-- Decode the last eight serde fields of `Resources` from a record. -/
def Resources.decodeC (j : List (String × Json)) : Option DecodedC := do
  let cloudformation_asg_anchor_nodes ← decOpt decStr (j.lookup "cloudformation_asg_anchor_nodes")
  let cloudformation_asg_anchor_nodes_logical_id ← decOpt decStr (j.lookup "cloudformation_asg_anchor_nodes_logical_id")
  let cloudformation_asg_non_anchor_nodes ← decOpt decStr (j.lookup "cloudformation_asg_non_anchor_nodes")
  let cloudformation_asg_non_anchor_nodes_logical_id ← decOpt decStr (j.lookup "cloudformation_asg_non_anchor_nodes_logical_id")
  let cloudformation_asg_nlb_arn ← decOpt decStr (j.lookup "cloudformation_asg_nlb_arn")
  let cloudformation_asg_nlb_target_group_arn ← decOpt decStr (j.lookup "cloudformation_asg_nlb_target_group_arn")
  let cloudformation_asg_nlb_dns_name ← decOpt decStr (j.lookup "cloudformation_asg_nlb_dns_name")
  let cloudwatch_avalanche_metrics_namespace ← decOpt decStr (j.lookup "cloudwatch_avalanche_metrics_namespace")
  some
    { cloudformation_asg_anchor_nodes := cloudformation_asg_anchor_nodes
      cloudformation_asg_anchor_nodes_logical_id := cloudformation_asg_anchor_nodes_logical_id
      cloudformation_asg_non_anchor_nodes := cloudformation_asg_non_anchor_nodes
      cloudformation_asg_non_anchor_nodes_logical_id := cloudformation_asg_non_anchor_nodes_logical_id
      cloudformation_asg_nlb_arn := cloudformation_asg_nlb_arn
      cloudformation_asg_nlb_target_group_arn := cloudformation_asg_nlb_target_group_arn
      cloudformation_asg_nlb_dns_name := cloudformation_asg_nlb_dns_name
      cloudwatch_avalanche_metrics_namespace := cloudwatch_avalanche_metrics_namespace }

/-- Assemble a ledger from the three decoded field groups. -/
def assembleResources (a : DecodedA) (b : DecodedB) (c : DecodedC) : Resources :=
  Resources.mk a.identity a.region a.s3_bucket a.db_backup_s3_region a.db_backup_s3_bucket
    a.db_backup_s3_key a.instance_system_logs a.instance_system_metrics a.nlb_acm_certificate_arn
    b.kms_cmk_id b.kms_cmk_arn b.ec2_key_name b.ec2_key_path b.cloudformation_ec2_instance_role
    b.cloudformation_ec2_instance_profile_arn b.cloudformation_vpc b.cloudformation_vpc_id
    b.cloudformation_vpc_security_group_id b.cloudformation_vpc_public_subnet_ids
    c.cloudformation_asg_anchor_nodes c.cloudformation_asg_anchor_nodes_logical_id
    c.cloudformation_asg_non_anchor_nodes c.cloudformation_asg_non_anchor_nodes_logical_id
    c.cloudformation_asg_nlb_arn c.cloudformation_asg_nlb_target_group_arn
    c.cloudformation_asg_nlb_dns_name c.cloudwatch_avalanche_metrics_namespace

/-- serde decoding of the ledger from a record: each field is read by
name with the decoder its type and attributes dictate; entries with
other names are ignored, and decoding fails when any field is present
with a value of the wrong shape. -/
def Resources.fromJson (j : List (String × Json)) : Option Resources := do
  let a ← Resources.decodeA j
  let b ← Resources.decodeB j
  let c ← Resources.decodeC j
  some (assembleResources a b c)

/-- The ledger a fully absent record decodes to: empty required strings
and every optional field unset. -/
def emptyRecordDecoded : Resources :=
  { identity := none
    region := ""
    s3_bucket := ""
    db_backup_s3_region := none
    db_backup_s3_bucket := none
    db_backup_s3_key := none
    instance_system_logs := none
    instance_system_metrics := none
    nlb_acm_certificate_arn := none
    kms_cmk_id := none
    kms_cmk_arn := none
    ec2_key_name := none
    ec2_key_path := none
    cloudformation_ec2_instance_role := none
    cloudformation_ec2_instance_profile_arn := none
    cloudformation_vpc := none
    cloudformation_vpc_id := none
    cloudformation_vpc_security_group_id := none
    cloudformation_vpc_public_subnet_ids := none
    cloudformation_asg_anchor_nodes := none
    cloudformation_asg_anchor_nodes_logical_id := none
    cloudformation_asg_non_anchor_nodes := none
    cloudformation_asg_non_anchor_nodes_logical_id := none
    cloudformation_asg_nlb_arn := none
    cloudformation_asg_nlb_target_group_arn := none
    cloudformation_asg_nlb_dns_name := none
    cloudwatch_avalanche_metrics_namespace := none }

/-- Modelled from the spec: the `ConfigError` taxonomy of section 7 as it
applies to `validate` (section 4.3), whose implementation is not among
the visible files. -/
inductive ConfigError where
  | emptyRegion : ConfigError
  | emptyS3Bucket : ConfigError
  | incompleteBackupCoordinates : ConfigError
  deriving DecidableEq

/-- True when some but not all of the three backup-source coordinates
are set, which section 4.3 calls a partially set backup configuration
that makes backup restoration ambiguous. -/
def Resources.backupIncomplete (r : Resources) : Bool :=
  (r.db_backup_s3_region.isSome || r.db_backup_s3_bucket.isSome || r.db_backup_s3_key.isSome)
    && !(r.db_backup_s3_region.isSome && r.db_backup_s3_bucket.isSome && r.db_backup_s3_key.isSome)

/-- Modelled from the spec: `validate()` of section 4.3, whose
implementation is not among the visible files: it fails with a
`ConfigError` when `region` or `s3_bucket` is empty, or when the backup
coordinates are partially set; it inspects the ledger and mutates
nothing. -/
def Resources.validate (r : Resources) : Except ConfigError Unit :=
  if r.region = "" then Except.error ConfigError.emptyRegion
  else if r.s3_bucket = "" then Except.error ConfigError.emptyS3Bucket
  else if r.backupIncomplete then Except.error ConfigError.incompleteBackupCoordinates
  else Except.ok ()

/-- True when `validate` fails. -/
def Resources.validateFails (r : Resources) : Bool :=
  match r.validate with
  | Except.error _ => true
  | Except.ok _ => false

/-- Modelled from the spec: the `StateError` of sections 4.3 and 7,
raised when `applyCreated` would overwrite an already-set derived
field. -/
inductive StateError where
  | alreadyCreated : StateError
  deriving DecidableEq

/-- Modelled from the spec: the resource kinds whose derived fields the
ledger tracks (section 3 groups the derived fields by these kinds). -/
inductive ResourceKind where
  | kms : ResourceKind
  | sshKeyPair : ResourceKind
  | instanceRole : ResourceKind
  | vpc : ResourceKind
  | anchorAsg : ResourceKind
  | nonAnchorAsg : ResourceKind
  | loadBalancer : ResourceKind
  | metricsNamespace : ResourceKind
  deriving DecidableEq

/-- Modelled from the spec: the creation outputs that `applyCreated`
writes for one resource kind — one constructor per derived field group
of section 3. -/
inductive Outputs where
  | kms (cmkId cmkArn : String) : Outputs
  | sshKeyPair (keyName keyPath : String) : Outputs
  | instanceRole (stackName profileArn : String) : Outputs
  | vpc (stackName vpcId securityGroupId : String) (publicSubnetIds : List String) : Outputs
  | anchorAsg (stackName logicalId : String) : Outputs
  | nonAnchorAsg (stackName logicalId : String) : Outputs
  | loadBalancer (nlbArn targetGroupArn dnsName : String) : Outputs
  | metricsNamespace (ns : String) : Outputs
  deriving DecidableEq

/-- The resource kind a creation output belongs to. -/
def Outputs.kind : Outputs → ResourceKind
  | Outputs.kms _ _ => ResourceKind.kms
  | Outputs.sshKeyPair _ _ => ResourceKind.sshKeyPair
  | Outputs.instanceRole _ _ => ResourceKind.instanceRole
  | Outputs.vpc _ _ _ _ => ResourceKind.vpc
  | Outputs.anchorAsg _ _ => ResourceKind.anchorAsg
  | Outputs.nonAnchorAsg _ _ => ResourceKind.nonAnchorAsg
  | Outputs.loadBalancer _ _ _ => ResourceKind.loadBalancer
  | Outputs.metricsNamespace _ => ResourceKind.metricsNamespace

/-- True when at least one derived field of the given resource kind is
set in the ledger. -/
def Resources.anyDerivedSet (r : Resources) : ResourceKind → Bool
  | ResourceKind.kms => r.kms_cmk_id.isSome || r.kms_cmk_arn.isSome
  | ResourceKind.sshKeyPair => r.ec2_key_name.isSome || r.ec2_key_path.isSome
  | ResourceKind.instanceRole =>
      r.cloudformation_ec2_instance_role.isSome || r.cloudformation_ec2_instance_profile_arn.isSome
  | ResourceKind.vpc =>
      r.cloudformation_vpc.isSome || r.cloudformation_vpc_id.isSome
        || r.cloudformation_vpc_security_group_id.isSome
        || r.cloudformation_vpc_public_subnet_ids.isSome
  | ResourceKind.anchorAsg =>
      r.cloudformation_asg_anchor_nodes.isSome || r.cloudformation_asg_anchor_nodes_logical_id.isSome
  | ResourceKind.nonAnchorAsg =>
      r.cloudformation_asg_non_anchor_nodes.isSome
        || r.cloudformation_asg_non_anchor_nodes_logical_id.isSome
  | ResourceKind.loadBalancer =>
      r.cloudformation_asg_nlb_arn.isSome || r.cloudformation_asg_nlb_target_group_arn.isSome
        || r.cloudformation_asg_nlb_dns_name.isSome
  | ResourceKind.metricsNamespace => r.cloudwatch_avalanche_metrics_namespace.isSome

/-- Write the creation outputs of one resource kind into the derived
fields of that kind, leaving every other field unchanged. -/
def Resources.writeOutputs (r : Resources) : Outputs → Resources
  | Outputs.kms cmkId cmkArn =>
      { r with kms_cmk_id := some cmkId, kms_cmk_arn := some cmkArn }
  | Outputs.sshKeyPair keyName keyPath =>
      { r with ec2_key_name := some keyName, ec2_key_path := some keyPath }
  | Outputs.instanceRole stackName profileArn =>
      { r with cloudformation_ec2_instance_role := some stackName,
               cloudformation_ec2_instance_profile_arn := some profileArn }
  | Outputs.vpc stackName vpcId securityGroupId publicSubnetIds =>
      { r with cloudformation_vpc := some stackName,
               cloudformation_vpc_id := some vpcId,
               cloudformation_vpc_security_group_id := some securityGroupId,
               cloudformation_vpc_public_subnet_ids := some publicSubnetIds }
  | Outputs.anchorAsg stackName logicalId =>
      { r with cloudformation_asg_anchor_nodes := some stackName,
               cloudformation_asg_anchor_nodes_logical_id := some logicalId }
  | Outputs.nonAnchorAsg stackName logicalId =>
      { r with cloudformation_asg_non_anchor_nodes := some stackName,
               cloudformation_asg_non_anchor_nodes_logical_id := some logicalId }
  | Outputs.loadBalancer nlbArn targetGroupArn dnsName =>
      { r with cloudformation_asg_nlb_arn := some nlbArn,
               cloudformation_asg_nlb_target_group_arn := some targetGroupArn,
               cloudformation_asg_nlb_dns_name := some dnsName }
  | Outputs.metricsNamespace ns =>
      { r with cloudwatch_avalanche_metrics_namespace := some ns }

/-- Modelled from the spec: `applyCreated(resourceKind, outputs)` of
section 4.3, whose implementation is not among the visible files: it
sets the derived fields of the output's resource kind, and fails with a
`StateError` when any derived field of that kind is already set, leaving
the ledger unchanged in that case. -/
def Resources.applyCreated (r : Resources) (o : Outputs) : Except StateError Resources :=
  if r.anyDerivedSet o.kind then Except.error StateError.alreadyCreated
  else Except.ok (r.writeOutputs o)

/-- A ledger whose backup bucket is set while the backup region and key
are not: its required fields are non-empty, yet its backup coordinates
are partially set. -/
def backupOnlyExample : Resources :=
  { Resources.default with s3_bucket := "fleet-bucket-1", db_backup_s3_bucket := some "backup-bucket" }

theorem lookup_eq_none_of_not_mem {α : Type} (l : List (String × α)) (k : String)
    (h : ¬ k ∈ l.map Prod.fst) : l.lookup k = none := by
  induction l with
  | nil => rfl
  | cons p rest ih =>
    obtain ⟨k1, v1⟩ := p
    simp only [List.map_cons, List.mem_cons] at h
    push_neg at h
    obtain ⟨h1, h2⟩ := h
    have hb : (k == k1) = false := by simp [h1]
    simp only [List.lookup, hb]
    exact ih h2

theorem buildRecord_lookup_eq_none (l : List (String × Option Json)) (k : String)
    (h : ¬ k ∈ l.map Prod.fst) : (buildRecord l).lookup k = none := by
  induction l with
  | nil => rfl
  | cons p rest ih =>
    obtain ⟨k1, v1⟩ := p
    simp only [List.map_cons, List.mem_cons] at h
    push_neg at h
    obtain ⟨h1, h2⟩ := h
    have hb : (k == k1) = false := by simp [h1]
    cases v1 with
    | none => simpa [buildRecord] using ih h2
    | some j =>
      simp only [buildRecord, List.lookup, hb]
      exact ih h2

theorem buildRecord_lookup (l : List (String × Option Json)) (k : String)
    (hnd : (l.map Prod.fst).Nodup) :
    (buildRecord l).lookup k = (l.lookup k).bind id := by
  induction l with
  | nil => rfl
  | cons p rest ih =>
    obtain ⟨k1, v1⟩ := p
    simp only [List.map_cons, List.nodup_cons] at hnd
    obtain ⟨hk1, hrest⟩ := hnd
    by_cases hk : k = k1
    · subst hk
      have hb : (k == k) = true := by simp
      cases v1 with
      | none =>
        simp only [buildRecord, List.lookup, hb, Option.some_bind, id_eq]
        exact buildRecord_lookup_eq_none rest k hk1
      | some j =>
        simp only [buildRecord, List.lookup, hb, Option.some_bind, id_eq]
    · have hb : (k == k1) = false := by simp [hk]
      cases v1 with
      | none =>
        simp only [buildRecord, List.lookup, hb]
        exact ih hrest
      | some j =>
        simp only [buildRecord, List.lookup, hb]
        exact ih hrest

theorem fieldEntries_keys (r : Resources) : r.fieldEntries.map Prod.fst = knownKeys := rfl

theorem knownKeys_nodup : knownKeys.Nodup := by decide

theorem fieldEntries_keys_nodup (r : Resources) : (r.fieldEntries.map Prod.fst).Nodup := by
  rw [fieldEntries_keys]
  exact knownKeys_nodup

theorem toJsonFields_lookup (r : Resources) (k : String) :
    r.toJsonFields.lookup k = (r.fieldEntries.lookup k).bind id :=
  buildRecord_lookup r.fieldEntries k (fieldEntries_keys_nodup r)

theorem fe_identity (r : Resources) :
    r.fieldEntries.lookup "identity" = some (r.identity.map Identity.toJson) := rfl

theorem fe_region (r : Resources) :
    r.fieldEntries.lookup "region" = some (some (Json.str r.region)) := rfl

theorem fe_s3_bucket (r : Resources) :
    r.fieldEntries.lookup "s3_bucket" = some (some (Json.str r.s3_bucket)) := rfl

theorem fe_db_backup_s3_region (r : Resources) :
    r.fieldEntries.lookup "db_backup_s3_region" = some (r.db_backup_s3_region.map Json.str) := rfl

theorem fe_db_backup_s3_bucket (r : Resources) :
    r.fieldEntries.lookup "db_backup_s3_bucket" = some (r.db_backup_s3_bucket.map Json.str) := rfl

theorem fe_db_backup_s3_key (r : Resources) :
    r.fieldEntries.lookup "db_backup_s3_key" = some (r.db_backup_s3_key.map Json.str) := rfl

theorem fe_instance_system_logs (r : Resources) :
    r.fieldEntries.lookup "instance_system_logs" = some (r.instance_system_logs.map Json.bool) := rfl

theorem fe_instance_system_metrics (r : Resources) :
    r.fieldEntries.lookup "instance_system_metrics" = some (r.instance_system_metrics.map Json.bool) := rfl

theorem fe_nlb_acm_certificate_arn (r : Resources) :
    r.fieldEntries.lookup "nlb_acm_certificate_arn" = some (r.nlb_acm_certificate_arn.map Json.str) := rfl

theorem fe_kms_cmk_id (r : Resources) :
    r.fieldEntries.lookup "kms_cmk_id" = some (r.kms_cmk_id.map Json.str) := rfl

theorem fe_kms_cmk_arn (r : Resources) :
    r.fieldEntries.lookup "kms_cmk_arn" = some (r.kms_cmk_arn.map Json.str) := rfl

theorem fe_ec2_key_name (r : Resources) :
    r.fieldEntries.lookup "ec2_key_name" = some (r.ec2_key_name.map Json.str) := rfl

theorem fe_ec2_key_path (r : Resources) :
    r.fieldEntries.lookup "ec2_key_path" = some (r.ec2_key_path.map Json.str) := rfl

theorem fe_cloudformation_ec2_instance_role (r : Resources) :
    r.fieldEntries.lookup "cloudformation_ec2_instance_role" =
      some (r.cloudformation_ec2_instance_role.map Json.str) := rfl

theorem fe_cloudformation_ec2_instance_profile_arn (r : Resources) :
    r.fieldEntries.lookup "cloudformation_ec2_instance_profile_arn" =
      some (r.cloudformation_ec2_instance_profile_arn.map Json.str) := rfl

theorem fe_cloudformation_vpc (r : Resources) :
    r.fieldEntries.lookup "cloudformation_vpc" = some (r.cloudformation_vpc.map Json.str) := rfl

theorem fe_cloudformation_vpc_id (r : Resources) :
    r.fieldEntries.lookup "cloudformation_vpc_id" = some (r.cloudformation_vpc_id.map Json.str) := rfl

theorem fe_cloudformation_vpc_security_group_id (r : Resources) :
    r.fieldEntries.lookup "cloudformation_vpc_security_group_id" =
      some (r.cloudformation_vpc_security_group_id.map Json.str) := rfl

theorem fe_cloudformation_vpc_public_subnet_ids (r : Resources) :
    r.fieldEntries.lookup "cloudformation_vpc_public_subnet_ids" =
      some (r.cloudformation_vpc_public_subnet_ids.map fun xs => Json.arr (xs.map Json.str)) := rfl

theorem fe_cloudformation_asg_anchor_nodes (r : Resources) :
    r.fieldEntries.lookup "cloudformation_asg_anchor_nodes" =
      some (r.cloudformation_asg_anchor_nodes.map Json.str) := rfl

theorem fe_cloudformation_asg_anchor_nodes_logical_id (r : Resources) :
    r.fieldEntries.lookup "cloudformation_asg_anchor_nodes_logical_id" =
      some (r.cloudformation_asg_anchor_nodes_logical_id.map Json.str) := rfl

theorem fe_cloudformation_asg_non_anchor_nodes (r : Resources) :
    r.fieldEntries.lookup "cloudformation_asg_non_anchor_nodes" =
      some (r.cloudformation_asg_non_anchor_nodes.map Json.str) := rfl

theorem fe_cloudformation_asg_non_anchor_nodes_logical_id (r : Resources) :
    r.fieldEntries.lookup "cloudformation_asg_non_anchor_nodes_logical_id" =
      some (r.cloudformation_asg_non_anchor_nodes_logical_id.map Json.str) := rfl

theorem fe_cloudformation_asg_nlb_arn (r : Resources) :
    r.fieldEntries.lookup "cloudformation_asg_nlb_arn" =
      some (r.cloudformation_asg_nlb_arn.map Json.str) := rfl

theorem fe_cloudformation_asg_nlb_target_group_arn (r : Resources) :
    r.fieldEntries.lookup "cloudformation_asg_nlb_target_group_arn" =
      some (r.cloudformation_asg_nlb_target_group_arn.map Json.str) := rfl

theorem fe_cloudformation_asg_nlb_dns_name (r : Resources) :
    r.fieldEntries.lookup "cloudformation_asg_nlb_dns_name" =
      some (r.cloudformation_asg_nlb_dns_name.map Json.str) := rfl

theorem fe_cloudwatch_avalanche_metrics_namespace (r : Resources) :
    r.fieldEntries.lookup "cloudwatch_avalanche_metrics_namespace" =
      some (r.cloudwatch_avalanche_metrics_namespace.map Json.str) := rfl

theorem decStrList_enc (xs : List String) : decStrList (xs.map Json.str) = some xs := by
  induction xs with
  | nil => rfl
  | cons x rest ih => simp [decStrList, decStr, ih]

theorem decOpt_str_enc (x : Option String) : decOpt decStr (x.map Json.str) = some x := by
  cases x <;> rfl

theorem decOpt_bool_enc (x : Option Bool) : decOpt decBool (x.map Json.bool) = some x := by
  cases x <;> rfl

theorem decOpt_arr_enc (x : Option (List String)) :
    decOpt decStrArr (x.map fun xs => Json.arr (xs.map Json.str)) = some x := by
  cases x with
  | none => rfl
  | some xs =>
    show (decStrArr (Json.arr (xs.map Json.str))).map some = some (some xs)
    rw [decStrArr, decStrList_enc]
    rfl

theorem identity_roundtrip (i : Identity) : Identity.fromJsonV (Identity.toJson i) = some i := by
  obtain ⟨a, p, u⟩ := i
  rfl

theorem decOpt_identity_enc (x : Option Identity) :
    decOpt Identity.fromJsonV (x.map Identity.toJson) = some x := by
  cases x with
  | none => rfl
  | some i =>
    show (Identity.fromJsonV (Identity.toJson i)).map some = some (some i)
    rw [identity_roundtrip]
    rfl

theorem decStringDefault_enc (s : String) : decStringDefault (some (Json.str s)) = some s := rfl

theorem decodeA_toJson (r : Resources) :
    Resources.decodeA r.toJsonFields =
      some ⟨r.identity, r.region, r.s3_bucket, r.db_backup_s3_region, r.db_backup_s3_bucket,
            r.db_backup_s3_key, r.instance_system_logs, r.instance_system_metrics,
            r.nlb_acm_certificate_arn⟩ := by
  simp only [Resources.decodeA, toJsonFields_lookup, fe_identity, fe_region, fe_s3_bucket,
    fe_db_backup_s3_region, fe_db_backup_s3_bucket, fe_db_backup_s3_key,
    fe_instance_system_logs, fe_instance_system_metrics, fe_nlb_acm_certificate_arn,
    Option.some_bind, id_eq, decOpt_identity_enc, decOpt_str_enc, decOpt_bool_enc,
    decStringDefault_enc]
  rfl

theorem decodeB_toJson (r : Resources) :
    Resources.decodeB r.toJsonFields =
      some ⟨r.kms_cmk_id, r.kms_cmk_arn, r.ec2_key_name, r.ec2_key_path,
            r.cloudformation_ec2_instance_role, r.cloudformation_ec2_instance_profile_arn,
            r.cloudformation_vpc, r.cloudformation_vpc_id,
            r.cloudformation_vpc_security_group_id, r.cloudformation_vpc_public_subnet_ids⟩ := by
  simp only [Resources.decodeB, toJsonFields_lookup, fe_kms_cmk_id, fe_kms_cmk_arn,
    fe_ec2_key_name, fe_ec2_key_path, fe_cloudformation_ec2_instance_role,
    fe_cloudformation_ec2_instance_profile_arn, fe_cloudformation_vpc,
    fe_cloudformation_vpc_id, fe_cloudformation_vpc_security_group_id,
    fe_cloudformation_vpc_public_subnet_ids, Option.some_bind, id_eq,
    decOpt_str_enc, decOpt_arr_enc]
  rfl

theorem decodeC_toJson (r : Resources) :
    Resources.decodeC r.toJsonFields =
      some ⟨r.cloudformation_asg_anchor_nodes, r.cloudformation_asg_anchor_nodes_logical_id,
            r.cloudformation_asg_non_anchor_nodes, r.cloudformation_asg_non_anchor_nodes_logical_id,
            r.cloudformation_asg_nlb_arn, r.cloudformation_asg_nlb_target_group_arn,
            r.cloudformation_asg_nlb_dns_name, r.cloudwatch_avalanche_metrics_namespace⟩ := by
  simp only [Resources.decodeC, toJsonFields_lookup, fe_cloudformation_asg_anchor_nodes,
    fe_cloudformation_asg_anchor_nodes_logical_id, fe_cloudformation_asg_non_anchor_nodes,
    fe_cloudformation_asg_non_anchor_nodes_logical_id, fe_cloudformation_asg_nlb_arn,
    fe_cloudformation_asg_nlb_target_group_arn, fe_cloudformation_asg_nlb_dns_name,
    fe_cloudwatch_avalanche_metrics_namespace, Option.some_bind, id_eq, decOpt_str_enc]
  rfl

theorem lookup_stripUnknown (k : String) (hk : knownKeys.contains k = true)
    (j : List (String × Json)) : (stripUnknown j).lookup k = j.lookup k := by
  induction j with
  | nil => rfl
  | cons p rest ih =>
    obtain ⟨pk, pv⟩ := p
    by_cases hp : knownKeys.contains pk = true
    · simp only [stripUnknown, List.filter_cons, hp, if_pos]
      by_cases hkp : k = pk
      · subst hkp
        simp [List.lookup]
      · have hb : (k == pk) = false := by simp [hkp]
        simp only [List.lookup, hb]
        simpa [stripUnknown] using ih
    · have hkp : (k == pk) = false := by
        rcases eq_or_ne k pk with h | h
        · subst h
          exact absurd hk hp
        · simp [h]
      simp only [stripUnknown, List.filter_cons, hp, if_neg, Bool.false_eq_true, if_false]
      simp only [List.lookup, hkp]
      simpa [stripUnknown] using ih

theorem mem_buildRecord (l : List (String × Option Json)) (p : String × Json)
    (hp : p ∈ buildRecord l) : (p.1, some p.2) ∈ l := by
  induction l with
  | nil => simp [buildRecord] at hp
  | cons q rest ih =>
    obtain ⟨name, v⟩ := q
    cases v with
    | none =>
      simp only [buildRecord] at hp
      exact List.mem_cons_of_mem _ (ih hp)
    | some j =>
      simp only [buildRecord, List.mem_cons] at hp
      rcases hp with h | h
      · subst h
        exact List.mem_cons_self _ _
      · exact List.mem_cons_of_mem _ (ih h)

theorem str_ne_null (s : String) : Json.str s ≠ Json.null := fun h => Json.noConfusion h

theorem bool_ne_null (b : Bool) : Json.bool b ≠ Json.null := fun h => Json.noConfusion h

theorem arr_ne_null (xs : List Json) : Json.arr xs ≠ Json.null := fun h => Json.noConfusion h

theorem identity_toJson_ne_null (i : Identity) : Identity.toJson i ≠ Json.null :=
  fun h => Json.noConfusion h

theorem ne_null_of_eq_map {α : Type} (f : α → Json) (hf : ∀ a, f a ≠ Json.null)
    (x : Option α) (b : Json) (h : some b = x.map f) : b ≠ Json.null := by
  cases x with
  | none => simp at h
  | some a =>
    have h2 : b = f a := by simpa using h
    subst h2
    exact hf a

theorem ne_null_of_some_eq (b v : Json) (hv : v ≠ Json.null) (h : some b = some v) :
    b ≠ Json.null := by
  rw [Option.some_inj] at h
  subst h
  exact hv
theorem toJsonFields_no_null (r : Resources) : ∀ p ∈ r.toJsonFields, p.2 ≠ Json.null := by
  intro p hp
  have hmem := mem_buildRecord r.fieldEntries p hp
  simp only [Resources.fieldEntries, List.mem_append] at hmem
  rcases hmem with (hm | hm) | hm
  · simp only [Resources.fieldEntriesA, List.mem_cons, List.not_mem_nil, or_false] at hm
    rcases hm with h | h | h | h | h | h | h | h | h <;>
      first
        | exact ne_null_of_eq_map Identity.toJson identity_toJson_ne_null _ _ (congrArg Prod.snd h)
        | exact ne_null_of_eq_map Json.str str_ne_null _ _ (congrArg Prod.snd h)
        | exact ne_null_of_eq_map Json.bool bool_ne_null _ _ (congrArg Prod.snd h)
        | exact ne_null_of_some_eq _ _ (str_ne_null _) (congrArg Prod.snd h)
  · simp only [Resources.fieldEntriesB, List.mem_cons, List.not_mem_nil, or_false] at hm
    rcases hm with h | h | h | h | h | h | h | h | h | h <;>
      first
        | exact ne_null_of_eq_map Json.str str_ne_null _ _ (congrArg Prod.snd h)
        | exact ne_null_of_eq_map (fun xs => Json.arr (List.map Json.str xs))
            (fun xs => arr_ne_null (List.map Json.str xs)) _ _ (congrArg Prod.snd h)
  · simp only [Resources.fieldEntriesC, List.mem_cons, List.not_mem_nil, or_false] at hm
    rcases hm with h | h | h | h | h | h | h | h <;>
      exact ne_null_of_eq_map Json.str str_ne_null _ _ (congrArg Prod.snd h)

/-- C3 counterexample: an explicit region that is present but empty is
used as-is by the provider chain of `load_config`, rather than falling
through to the environment-provided default as the claimed priority
order would require. -/
theorem region_empty_explicit_counterexample :
    load_config (some "") (some "eu-central-1") = Except.ok { region := some "" } ∧
    regionChain (some "") (some "eu-central-1") = some "" ∧
    some "" ≠ some ("eu-central-1" : String) :=
  ⟨rfl, rfl, by decide⟩

/-- C3 (amended): the region provider chain returns the explicit region
whenever one is present (empty or not); only when it is absent does the
environment-provided default apply, and only when that is also absent
does the chain return the hardcoded fallback region, so
`load_config(Some("eu-west-1"))` configures region `eu-west-1` and
`load_config(None)` with no environment default configures region
`us-west-2`. -/
theorem region_resolution_priority (reg envDefault : Option String) :
    (∀ s, reg = some s → regionChain reg envDefault = some s) ∧
    (reg = none → ∀ s, envDefault = some s → regionChain reg envDefault = some s) ∧
    (reg = none → envDefault = none → regionChain reg envDefault = some "us-west-2") ∧
    load_config (some "eu-west-1") envDefault = Except.ok { region := some "eu-west-1" } ∧
    load_config none none = Except.ok { region := some "us-west-2" } := by
  refine ⟨?_, ?_, ?_, rfl, rfl⟩
  · intro s hs
    subst hs
    rfl
  · intro h s hs
    subst h
    subst hs
    rfl
  · intro h1 h2
    subst h1
    subst h2
    rfl

/-- C3 witness: the amended priority claim applied at the explicit
region `eu-west-1` with no environment default. -/
theorem region_resolution_priority_witness :
    regionChain (some "eu-west-1") none = some "eu-west-1" :=
  (region_resolution_priority (some "eu-west-1") none).1 "eu-west-1" rfl

/-- C4: the fresh ledger `Resources::default()` has region set to the
fallback region `us-west-2`, both instance telemetry flags enabled, and
the identity snapshot, the backup coordinates, the certificate
reference and every derived field unset. -/
theorem resources_default_fields :
    Resources.default.region = "us-west-2" ∧
    Resources.default.instance_system_logs = some true ∧
    Resources.default.instance_system_metrics = some true ∧
    Resources.default.identity = none ∧
    Resources.default.db_backup_s3_region = none ∧
    Resources.default.db_backup_s3_bucket = none ∧
    Resources.default.db_backup_s3_key = none ∧
    Resources.default.nlb_acm_certificate_arn = none ∧
    Resources.default.kms_cmk_id = none ∧
    Resources.default.kms_cmk_arn = none ∧
    Resources.default.ec2_key_name = none ∧
    Resources.default.ec2_key_path = none ∧
    Resources.default.cloudformation_ec2_instance_role = none ∧
    Resources.default.cloudformation_ec2_instance_profile_arn = none ∧
    Resources.default.cloudformation_vpc = none ∧
    Resources.default.cloudformation_vpc_id = none ∧
    Resources.default.cloudformation_vpc_security_group_id = none ∧
    Resources.default.cloudformation_vpc_public_subnet_ids = none ∧
    Resources.default.cloudformation_asg_anchor_nodes = none ∧
    Resources.default.cloudformation_asg_anchor_nodes_logical_id = none ∧
    Resources.default.cloudformation_asg_non_anchor_nodes = none ∧
    Resources.default.cloudformation_asg_non_anchor_nodes_logical_id = none ∧
    Resources.default.cloudformation_asg_nlb_arn = none ∧
    Resources.default.cloudformation_asg_nlb_target_group_arn = none ∧
    Resources.default.cloudformation_asg_nlb_dns_name = none ∧
    Resources.default.cloudwatch_avalanche_metrics_namespace = none :=
  ⟨rfl, rfl, rfl, rfl, rfl, rfl, rfl, rfl, rfl, rfl, rfl, rfl, rfl, rfl, rfl, rfl, rfl,
   rfl, rfl, rfl, rfl, rfl, rfl, rfl, rfl, rfl⟩

/-- C5: `load_config` never fails: for every optional explicit region
(including `none` and empty strings) it returns `Ok` with a
configuration carrying a concrete region, so the error branch of its
result is unreachable. -/
theorem load_config_never_fails (reg envDefault : Option String) :
    (load_config reg envDefault).isOk = true ∧
    ∃ cfg, load_config reg envDefault = Except.ok cfg ∧ cfg.region.isSome = true := by
  refine ⟨rfl, { region := regionChain reg envDefault }, rfl, ?_⟩
  cases reg <;> cases envDefault <;> rfl

/-- C9: the `Default` trait implementation of `Resources` agrees with
the inherent constructor: its body's `Self::default()` call resolves to
the inherent `Resources::default` (inherent associated functions shadow
trait methods in Rust path resolution), so it terminates and returns a
value equal to `Resources::default()`. -/
theorem default_trait_impl_eq_inherent : Resources.defaultImpl = Resources.default := rfl

/-- C7 counterexample: a ledger with non-empty region and bucket whose
backup bucket is set while the backup region and key are unset makes
`validate` fail, so failing does not imply that `region` or `s3_bucket`
is empty. -/
theorem validate_backup_only_counterexample :
    backupOnlyExample.region ≠ "" ∧
    backupOnlyExample.s3_bucket ≠ "" ∧
    backupOnlyExample.validateFails = true :=
  ⟨by decide, by decide, rfl⟩

/-- C7 (amended): `validate()` fails if and only if `region` is empty,
or `s3_bucket` is empty, or the backup coordinates are partially set
(some but not all of backup region, bucket and key present); it is a
pure check, returning only a result and leaving the ledger unchanged. -/
theorem validate_fails_iff (r : Resources) :
    r.validateFails = (r.region == "" || r.s3_bucket == "" || r.backupIncomplete) := by
  by_cases h1 : r.region = "" <;> by_cases h2 : r.s3_bucket = "" <;>
    by_cases h3 : r.backupIncomplete = true <;>
      simp [Resources.validateFails, Resources.validate, h1, h2, h3]

/-- C8 helper: writing the creation outputs of a resource kind marks
that kind as having a derived field set. -/
theorem anyDerivedSet_writeOutputs (r : Resources) (o : Outputs) :
    (r.writeOutputs o).anyDerivedSet o.kind = true := by
  cases o <;> simp [Resources.writeOutputs, Resources.anyDerivedSet, Outputs.kind]

/-- C8: `applyCreated` is write-once: when any derived field of the
output's resource kind is already set it fails with a `StateError` (and,
being pure, returns no modified ledger), and after a successful
`applyCreated` any further `applyCreated` for the same resource kind
fails with a `StateError`. -/
theorem applyCreated_write_once (r : Resources) (o o2 : Outputs) :
    (r.anyDerivedSet o.kind = true →
      r.applyCreated o = Except.error StateError.alreadyCreated) ∧
    (∀ r2, r.applyCreated o = Except.ok r2 → o2.kind = o.kind →
      r2.applyCreated o2 = Except.error StateError.alreadyCreated) := by
  constructor
  · intro h
    simp [Resources.applyCreated, h]
  · intro r2 hok hkind
    rw [Resources.applyCreated] at hok
    by_cases hset : r.anyDerivedSet o.kind = true
    · rw [if_pos hset] at hok
      exact absurd hok (by simp)
    · rw [if_neg hset] at hok
      have hr2 : r2 = r.writeOutputs o := by
        have := hok
        simp only [Except.ok.injEq] at this
        exact this.symm
      subst hr2
      rw [Resources.applyCreated, hkind, if_pos (anyDerivedSet_writeOutputs r o)]

/-- C8 witness: applying the KMS outputs to the fresh ledger succeeds,
and applying KMS outputs again to the result fails with a
`StateError`. -/
theorem applyCreated_write_once_witness :
    (Resources.default.writeOutputs (Outputs.kms "key-id-1" "key-arn-1")).applyCreated
        (Outputs.kms "key-id-2" "key-arn-2") = Except.error StateError.alreadyCreated :=
  (applyCreated_write_once Resources.default (Outputs.kms "key-id-1" "key-arn-1")
      (Outputs.kms "key-id-2" "key-arn-2")).2
    (Resources.default.writeOutputs (Outputs.kms "key-id-1" "key-arn-1")) rfl rfl

theorem isSome_map_eq {α : Type} (x : Option α) (f : α → Json) :
    (x.map f).isSome = x.isSome := by
  cases x <;> rfl

/-- C1: the serialized record of a ledger contains an entry for an
optional field (identity, backup coordinates, feature flags, certificate
arn and every derived field) exactly when that field is set, and no
entry of the record is ever the JSON null value: an unset field is
omitted entirely. -/
theorem resources_serialization_omits_unset (r : Resources) :
    (∀ p ∈ r.toJsonFields, p.2 ≠ Json.null) ∧
    (r.toJsonFields.lookup "identity").isSome = r.identity.isSome ∧
    (r.toJsonFields.lookup "db_backup_s3_region").isSome = r.db_backup_s3_region.isSome ∧
    (r.toJsonFields.lookup "db_backup_s3_bucket").isSome = r.db_backup_s3_bucket.isSome ∧
    (r.toJsonFields.lookup "db_backup_s3_key").isSome = r.db_backup_s3_key.isSome ∧
    (r.toJsonFields.lookup "instance_system_logs").isSome = r.instance_system_logs.isSome ∧
    (r.toJsonFields.lookup "instance_system_metrics").isSome = r.instance_system_metrics.isSome ∧
    (r.toJsonFields.lookup "nlb_acm_certificate_arn").isSome = r.nlb_acm_certificate_arn.isSome ∧
    (r.toJsonFields.lookup "kms_cmk_id").isSome = r.kms_cmk_id.isSome ∧
    (r.toJsonFields.lookup "kms_cmk_arn").isSome = r.kms_cmk_arn.isSome ∧
    (r.toJsonFields.lookup "ec2_key_name").isSome = r.ec2_key_name.isSome ∧
    (r.toJsonFields.lookup "ec2_key_path").isSome = r.ec2_key_path.isSome ∧
    (r.toJsonFields.lookup "cloudformation_ec2_instance_role").isSome
      = r.cloudformation_ec2_instance_role.isSome ∧
    (r.toJsonFields.lookup "cloudformation_ec2_instance_profile_arn").isSome
      = r.cloudformation_ec2_instance_profile_arn.isSome ∧
    (r.toJsonFields.lookup "cloudformation_vpc").isSome = r.cloudformation_vpc.isSome ∧
    (r.toJsonFields.lookup "cloudformation_vpc_id").isSome = r.cloudformation_vpc_id.isSome ∧
    (r.toJsonFields.lookup "cloudformation_vpc_security_group_id").isSome
      = r.cloudformation_vpc_security_group_id.isSome ∧
    (r.toJsonFields.lookup "cloudformation_vpc_public_subnet_ids").isSome
      = r.cloudformation_vpc_public_subnet_ids.isSome ∧
    (r.toJsonFields.lookup "cloudformation_asg_anchor_nodes").isSome
      = r.cloudformation_asg_anchor_nodes.isSome ∧
    (r.toJsonFields.lookup "cloudformation_asg_anchor_nodes_logical_id").isSome
      = r.cloudformation_asg_anchor_nodes_logical_id.isSome ∧
    (r.toJsonFields.lookup "cloudformation_asg_non_anchor_nodes").isSome
      = r.cloudformation_asg_non_anchor_nodes.isSome ∧
    (r.toJsonFields.lookup "cloudformation_asg_non_anchor_nodes_logical_id").isSome
      = r.cloudformation_asg_non_anchor_nodes_logical_id.isSome ∧
    (r.toJsonFields.lookup "cloudformation_asg_nlb_arn").isSome
      = r.cloudformation_asg_nlb_arn.isSome ∧
    (r.toJsonFields.lookup "cloudformation_asg_nlb_target_group_arn").isSome
      = r.cloudformation_asg_nlb_target_group_arn.isSome ∧
    (r.toJsonFields.lookup "cloudformation_asg_nlb_dns_name").isSome
      = r.cloudformation_asg_nlb_dns_name.isSome ∧
    (r.toJsonFields.lookup "cloudwatch_avalanche_metrics_namespace").isSome
      = r.cloudwatch_avalanche_metrics_namespace.isSome := by
  refine ⟨toJsonFields_no_null r, ?_, ?_, ?_, ?_, ?_, ?_, ?_, ?_, ?_, ?_, ?_, ?_, ?_, ?_,
    ?_, ?_, ?_, ?_, ?_, ?_, ?_, ?_, ?_, ?_, ?_⟩ <;>
    simp only [toJsonFields_lookup, fe_identity, fe_db_backup_s3_region, fe_db_backup_s3_bucket,
      fe_db_backup_s3_key, fe_instance_system_logs, fe_instance_system_metrics,
      fe_nlb_acm_certificate_arn, fe_kms_cmk_id, fe_kms_cmk_arn, fe_ec2_key_name, fe_ec2_key_path,
      fe_cloudformation_ec2_instance_role, fe_cloudformation_ec2_instance_profile_arn,
      fe_cloudformation_vpc, fe_cloudformation_vpc_id, fe_cloudformation_vpc_security_group_id,
      fe_cloudformation_vpc_public_subnet_ids, fe_cloudformation_asg_anchor_nodes,
      fe_cloudformation_asg_anchor_nodes_logical_id, fe_cloudformation_asg_non_anchor_nodes,
      fe_cloudformation_asg_non_anchor_nodes_logical_id, fe_cloudformation_asg_nlb_arn,
      fe_cloudformation_asg_nlb_target_group_arn, fe_cloudformation_asg_nlb_dns_name,
      fe_cloudwatch_avalanche_metrics_namespace, Option.some_bind, id_eq] <;>
    exact isSome_map_eq _ _

/-- C2: serialization round-trips: decoding the serialized record of any
ledger succeeds and returns a ledger structurally equal to the one that
was encoded. -/
theorem resources_serialization_roundtrip (r : Resources) :
    Resources.fromJson r.toJsonFields = some r := by
  simp only [Resources.fromJson, decodeA_toJson, decodeB_toJson, decodeC_toJson]
  rfl

/-- C6: decoding ignores unknown fields: a record decodes to exactly the
same result as the record with all entries bearing unknown names
removed, and the fully absent record decodes successfully, with the
required strings defaulted to empty and every optional field unset. -/
theorem fromJson_ignores_unknown_fields (j : List (String × Json)) :
    Resources.fromJson j = Resources.fromJson (stripUnknown j) ∧
    Resources.fromJson [] = some emptyRecordDecoded := by
  constructor
  · simp only [Resources.fromJson, Resources.decodeA, Resources.decodeB, Resources.decodeC]
    rw [lookup_stripUnknown "identity" (by decide) j,
      lookup_stripUnknown "region" (by decide) j,
      lookup_stripUnknown "s3_bucket" (by decide) j,
      lookup_stripUnknown "db_backup_s3_region" (by decide) j,
      lookup_stripUnknown "db_backup_s3_bucket" (by decide) j,
      lookup_stripUnknown "db_backup_s3_key" (by decide) j,
      lookup_stripUnknown "instance_system_logs" (by decide) j,
      lookup_stripUnknown "instance_system_metrics" (by decide) j,
      lookup_stripUnknown "nlb_acm_certificate_arn" (by decide) j,
      lookup_stripUnknown "kms_cmk_id" (by decide) j,
      lookup_stripUnknown "kms_cmk_arn" (by decide) j,
      lookup_stripUnknown "ec2_key_name" (by decide) j,
      lookup_stripUnknown "ec2_key_path" (by decide) j,
      lookup_stripUnknown "cloudformation_ec2_instance_role" (by decide) j,
      lookup_stripUnknown "cloudformation_ec2_instance_profile_arn" (by decide) j,
      lookup_stripUnknown "cloudformation_vpc" (by decide) j,
      lookup_stripUnknown "cloudformation_vpc_id" (by decide) j,
      lookup_stripUnknown "cloudformation_vpc_security_group_id" (by decide) j,
      lookup_stripUnknown "cloudformation_vpc_public_subnet_ids" (by decide) j,
      lookup_stripUnknown "cloudformation_asg_anchor_nodes" (by decide) j,
      lookup_stripUnknown "cloudformation_asg_anchor_nodes_logical_id" (by decide) j,
      lookup_stripUnknown "cloudformation_asg_non_anchor_nodes" (by decide) j,
      lookup_stripUnknown "cloudformation_asg_non_anchor_nodes_logical_id" (by decide) j,
      lookup_stripUnknown "cloudformation_asg_nlb_arn" (by decide) j,
      lookup_stripUnknown "cloudformation_asg_nlb_target_group_arn" (by decide) j,
      lookup_stripUnknown "cloudformation_asg_nlb_dns_name" (by decide) j,
      lookup_stripUnknown "cloudwatch_avalanche_metrics_namespace" (by decide) j]
  · rfl

/-- C10: decoding a record whose region, bucket and telemetry flag
entries are absent does not re-apply the construction defaults: the
decoded ledger's region and bucket are the empty string (violating the
documented non-empty requirement until the caller sets them) and its
telemetry flags are unset, not the enabled flags of the fresh-ledger
constructor. -/
theorem fromJson_absent_fields_not_defaulted (j : List (String × Json)) (r : Resources)
    (hreg : j.lookup "region" = none) (hs3 : j.lookup "s3_bucket" = none)
    (hlogs : j.lookup "instance_system_logs" = none)
    (hmets : j.lookup "instance_system_metrics" = none)
    (h : Resources.fromJson j = some r) :
    r.region = "" ∧ r.s3_bucket = "" ∧ r.instance_system_logs = none ∧
      r.instance_system_metrics = none := by
  simp only [Resources.fromJson, Option.bind_eq_bind, Option.bind_eq_some] at h
  obtain ⟨a, ha, b, hb, c, hc, hfin⟩ := h
  have hr : r = assembleResources a b c := by simpa using hfin.symm
  subst hr
  simp only [Resources.decodeA, hreg, hs3, hlogs, hmets, decStringDefault, decOpt,
    Option.bind_eq_bind, Option.bind_eq_some, Option.some_inj, exists_eq_left,
    exists_eq_left'] at ha
  obtain ⟨ident, hident, dbr, hdbr, dbb, hdbb, dbk, hdbk, cert, hcert, hfinA⟩ := ha
  have ha2 : a = ⟨ident, "", "", dbr, dbb, dbk, none, none, cert⟩ := hfinA.symm
  subst ha2
  exact ⟨rfl, rfl, rfl, rfl⟩

/-- C10 witness: decoding the empty record yields a ledger with empty
region and bucket and unset telemetry flags. -/
theorem fromJson_absent_fields_not_defaulted_witness :
    emptyRecordDecoded.region = "" ∧ emptyRecordDecoded.s3_bucket = "" ∧
    emptyRecordDecoded.instance_system_logs = none ∧
    emptyRecordDecoded.instance_system_metrics = none :=
  fromJson_absent_fields_not_defaulted [] emptyRecordDecoded rfl rfl rfl rfl rfl

/-- C1 witness: the fresh ledger's serialized record contains its region
entry, and that entry is not null. -/
theorem resources_serialization_omits_unset_witness :
    ("region", Json.str "us-west-2") ∈ Resources.default.toJsonFields ∧
    ("region", Json.str "us-west-2").2 ≠ Json.null := by
  have hlist : Resources.default.toJsonFields =
      [("region", Json.str "us-west-2"), ("s3_bucket", Json.str ""),
       ("instance_system_logs", Json.bool true),
       ("instance_system_metrics", Json.bool true)] := rfl
  have hmem : ("region", Json.str "us-west-2") ∈ Resources.default.toJsonFields := by
    rw [hlist]
    exact List.mem_cons_self _ _
  exact ⟨hmem, (resources_serialization_omits_unset Resources.default).1 _ hmem⟩
